import Mathlib

/-!
Shallow embedding of `pika_pool.py`: a queue-backed connection pool
(`QueuedPool`), its connection wrapper (`Connection`, the user-facing
handle), and the pool-internal connection record (`Fairy`).

Python exceptions are modelled by inductive types; external exception
values are represented by their class (`ExcClass`), with `isinstance`
modelled through an explicit superclass list mirroring the pika
exception hierarchy.  Timestamps and timeouts are integers; `time.time()`
is passed in explicitly as `now`.  Stateful methods become functions on
explicit state records; concurrency is modelled by letting each primitive
step's outcome be supplied by an environment/oracle.
-/

namespace PikaPool

/-- Classes of external (pika / stdlib) exceptions that can reach the pool.
`connectionClosed` is a subclass of `amqpConnectionError` in pika; the other
classes are unrelated.  `valueError` / `otherError` stand for arbitrary
non-connectivity exceptions. -/
inductive ExcClass
  | amqpConnectionError
  | connectionClosed
  | channelClosed
  | selectError
  | valueError
  | otherError
  deriving DecidableEq, Repr

/-- Python superclass chain of an exception class (reflexive): models the
class hierarchy that `isinstance` consults. -/
def pySuperclasses : ExcClass → List ExcClass
  | .connectionClosed => [.connectionClosed, .amqpConnectionError]
  | c => [c]

/-- `isinstance(exc, parent)` on the modelled hierarchy. -/
def isinstance (c parent : ExcClass) : Bool :=
  (pySuperclasses c).contains parent

namespace Connection

/-- `Connection.connectivity_errors`: the tuple of exception classes that
imply the connection has been invalidated. -/
def connectivity_errors : List ExcClass :=
  [.amqpConnectionError, .connectionClosed, .channelClosed, .selectError]

/-- `Connection.is_connection_invalidated(exc)`:
`any(isinstance(exc, error) for error in cls.connectivity_errors)`. -/
def is_connection_invalidated (c : ExcClass) : Bool :=
  connectivity_errors.any fun error => isinstance c error

end Connection

/-- Whether an `except Connection.connectivity_errors` clause catches an
exception of class `c` (Python matches the raised class against each class
in the tuple via subclass membership). -/
def exceptConnectivityCatches (c : ExcClass) : Bool :=
  Connection.connectivity_errors.any fun error => isinstance c error

namespace Fairy

/-- One `try: <close>() except Connection.connectivity_errors as ex:
if not Connection.is_connection_invalidated(ex): raise` block of
`Fairy.close`.  Input: the exception raised by the close call (`none` when
it succeeds).  Output: the exception escaping the block (`none` when the
close succeeded or the exception was suppressed). -/
def closeGuard (res : Option ExcClass) : Option ExcClass :=
  match res with
  | none => none
  | some c =>
    if exceptConnectivityCatches c then
      if !Connection.is_connection_invalidated c then some c else none
    else
      some c

/-- `Fairy.close`: if a channel exists, close it under the suppression
guard; then close the connection under the same guard.  Inputs: whether the
fairy has a (truthy) channel, and the outcomes of `channel.close()` and
`cxn.close()` (`none` = success).  Output: whether `cxn.close()` was
reached/attempted, and the exception escaping `Fairy.close` (if any). -/
def close (hasChannel : Bool) (chRes cxnRes : Option ExcClass) :
    Bool × Option ExcClass :=
  if hasChannel then
    match closeGuard chRes with
    | some c => (false, some c)
    | none => (true, closeGuard cxnRes)
  else
    (true, closeGuard cxnRes)

end Fairy

/-- The action taken by `Connection.__exit__`. -/
inductive ExitAction
  | released
  | closed
  deriving DecidableEq, Repr

namespace Connection

/-- `Connection.__exit__(type, value, traceback)`: release on a clean exit
or a non-invalidating exception, close on an invalidating one.  The input
is the class of the in-flight exception (`none` when `type is None`). -/
def exitStep (ty : Option ExcClass) : ExitAction :=
  match ty with
  | none => .released
  | some c =>
    if !is_connection_invalidated c then .released else .closed

end Connection

/-- `QueuedPool.Fairy` bookkeeping relevant to the policies: timestamps and
whether a sub-channel has been created. -/
structure QFairy where
  createdAt : Int
  releasedAt : Int
  hasChannel : Bool
  deriving DecidableEq, Repr

namespace QueuedPool

/-- `QueuedPool.is_expired(fairy)`: `if not self.recycle: return False;
return (time.time() - fairy.created_at) > self.recycle`.  A `recycle` of
`none` (Python `None`) or `some 0` (Python `0`, falsy) disables the check. -/
def is_expired (recycle : Option Int) (now createdAt : Int) : Bool :=
  match recycle with
  | none => false
  | some r => if r = 0 then false else decide (now - createdAt > r)

/-- `QueuedPool.is_stale(fairy)`: `if not self.stale: return False;
return (time.time() - fairy.released_at) > self.stale`. -/
def is_stale (stale : Option Int) (now releasedAt : Int) : Bool :=
  match stale with
  | none => false
  | some s => if s = 0 then false else decide (now - releasedAt > s)

/-- From the spec's words (for comparison with `is_expired` /
`is_stale`): false if the setting is unset, else true iff
`now - timestamp > threshold` (strict). -/
def expirySpec (setting : Option Int) (now timestamp : Int) : Bool :=
  match setting with
  | none => false
  | some r => decide (now - timestamp > r)

/-- Exceptions that can escape `QueuedPool`'s methods: the pool-internal
`Overflow` and `Timeout`, or an external exception (from the factory or
from closing a connection/channel). -/
inductive PoolExc
  | overflow
  | timeout
  | external (c : ExcClass)
  deriving DecidableEq, Repr

/-- `QueuedPool._create`: atomically check-and-decrement `_avail` (raising
`Overflow` when `_avail <= 0` without calling the factory); on a factory
error, re-increment `_avail` and re-raise.  Input: current `_avail` and the
factory outcome; output: the new `_avail` and the result (`ok` = a fairy
was created). -/
def _create (avail : Int) (factory : Except ExcClass Unit) :
    Int × Except PoolExc Unit :=
  if avail ≤ 0 then
    (avail, .error .overflow)
  else
    match factory with
    | .ok _ => (avail - 1, .ok ())
    | .error c => (avail - 1 + 1, .error (.external c))

/-- A pool-level operation in the budget trace model: a call to `_create`
(with the factory outcome it would observe) or the destruction of a live
fairy through `QueuedPool.close` (which increments `_avail` by one). -/
inductive PoolOp
  | create (factory : Except ExcClass Unit)
  | destroy
  deriving Repr

/-- Budget-tracking state: the `_avail` counter and the number of live
(created and not yet destroyed) fairies. -/
structure BudgetState where
  avail : Int
  live : Nat
  deriving DecidableEq, Repr

/-- One step of the budget trace model.  `destroy` is enabled only when a
live fairy exists (the pool only closes fairies it created); the result is
`none` for an ill-formed trace. -/
def budgetStep (s : BudgetState) : PoolOp → Option BudgetState
  | .create factory =>
    match _create s.avail factory with
    | (a, .ok _) => some { avail := a, live := s.live + 1 }
    | (a, .error _) => some { avail := a, live := s.live }
  | .destroy =>
    match s.live with
    | 0 => none
    | n + 1 => some { avail := s.avail + 1, live := n }

/-- Run a sequence of pool operations from a state. -/
def budgetRun (s : BudgetState) : List PoolOp → Option BudgetState
  | [] => some s
  | op :: ops =>
    match budgetStep s op with
    | none => none
    | some s' => budgetRun s' ops

/-- Initial budget state of `QueuedPool.__init__`:
`_avail = max_size + max_overflow`, no live fairies. -/
def initBudget (maxSize maxOverflow : Nat) : BudgetState :=
  { avail := (maxSize : Int) + maxOverflow, live := 0 }

/-- Idle-queue-plus-budget state used by the `release` model. -/
structure QPState where
  queue : List QFairy
  avail : Int
  deriving DecidableEq, Repr

/-- `QueuedPool.close(fairy)`: increment `_avail` (under the lock), then
`super().close(fairy)`, i.e. `fairy.close()`.  Output: the new `_avail`,
whether `cxn.close()` was attempted, and the exception escaping (if any). -/
def close (avail : Int) (f : QFairy) (chRes cxnRes : Option ExcClass) :
    Int × Bool × Option ExcClass :=
  (avail + 1, Fairy.close f.hasChannel chRes cxnRes)

/-- `QueuedPool.release(fairy)`: stamp `released_at = time.time()`, then
`put_nowait` on `queue.Queue(maxsize=maxSize)`; `put_nowait` raises
`queue.Full` exactly when `0 < maxsize` and the queue already holds at
least `maxsize` items (a `Queue` with `maxsize <= 0` is unbounded and
never full); on `queue.Full`, `self.close(fairy)` (whose outcomes for
`channel.close()` / `cxn.close()` are `chRes` / `cxnRes`).  Output: the
new state and the exception escaping `release` (if any). -/
def release (maxSize : Nat) (s : QPState) (f : QFairy) (now : Int)
    (chRes cxnRes : Option ExcClass) : QPState × Option ExcClass :=
  let f' := { f with releasedAt := now }
  if 0 < maxSize ∧ maxSize ≤ s.queue.length then
    let r := close s.avail f' chRes cxnRes
    ({ s with avail := r.1 }, r.2.2)
  else
    ({ s with queue := s.queue ++ [f'] }, none)

end QueuedPool

/-- The observable outcome of a Python call in the handle model: normal
return, an `AttributeError` (attribute access on `None`), or an exception
propagated from closing the underlying resources. -/
inductive PyOutcome
  | ok
  | attributeError
  | raised (c : ExcClass)
  deriving DecidableEq, Repr

/-- State observed by a `Connection` handle bound to a `QueuedPool`: the
handle's `self.fairy` reference, the pool's queue/budget state, and how
many times the underlying connection's `close()` has been attempted. -/
structure HandleState where
  fairy : Option QFairy
  pool : QueuedPool.QPState
  cxnCloseAttempts : Nat
  deriving DecidableEq, Repr

namespace Connection

/-- `Connection.close` on a handle over a `QueuedPool`:
`self.pool.close(self.fairy)` first increments `_avail` (QueuedPool.close),
then calls `fairy.close()`; when `self.fairy` is `None` that second step
raises `AttributeError` — after the increment.  `self.fairy = None` runs
only when `self.pool.close` returns normally. -/
def closeStep (s : HandleState) (chRes cxnRes : Option ExcClass) :
    HandleState × PyOutcome :=
  match s.fairy with
  | none =>
    ({ s with pool := { s.pool with avail := s.pool.avail + 1 } },
      .attributeError)
  | some f =>
    let r := QueuedPool.close s.pool.avail f chRes cxnRes
    let attempts := s.cxnCloseAttempts + (if r.2.1 then 1 else 0)
    match r.2.2 with
    | some c =>
      ({ s with pool := { s.pool with avail := r.1 }
                cxnCloseAttempts := attempts }, .raised c)
    | none =>
      ({ fairy := none
         pool := { s.pool with avail := r.1 }
         cxnCloseAttempts := attempts }, .ok)

/-- `Connection.release` on a handle over a `QueuedPool`:
`self.pool.release(self.fairy)` first evaluates
`fairy.released_at = time.time()`, which raises `AttributeError` when
`self.fairy` is `None`, before any queue or budget effect; otherwise the
pool's `release` runs (destroying the fairy when the queue is full) and
then `self.fairy = None`. -/
def releaseStep (maxSize : Nat) (s : HandleState) (now : Int)
    (chRes cxnRes : Option ExcClass) : HandleState × PyOutcome :=
  match s.fairy with
  | none => (s, .attributeError)
  | some f =>
    let r := QueuedPool.release maxSize s.pool f now chRes cxnRes
    let attempts := s.cxnCloseAttempts +
      (if 0 < maxSize ∧ maxSize ≤ s.pool.queue.length then
        (if (Fairy.close f.hasChannel chRes cxnRes).1 then 1 else 0)
       else 0)
    match r.2 with
    | some c =>
      ({ s with pool := r.1, cxnCloseAttempts := attempts }, .raised c)
    | none =>
      ({ fairy := none, pool := r.1, cxnCloseAttempts := attempts }, .ok)

end Connection

namespace QueuedPool

/-- `timeout = timeout or self.timeout`: Python `or` takes the right
operand whenever the left is falsy (`None` or `0`). -/
def pyOrTimeout (timeout : Option Int) (default : Int) : Int :=
  match timeout with
  | none => default
  | some v => if v = 0 then default else v

/-- Pool configuration consulted by `acquire`. -/
structure Cfg where
  timeout : Int
  recycle : Option Int
  stale : Option Int
  deriving Repr

/-- Environment of one pass of `acquire` (one stack frame of the recursion),
supplying the outcome of each primitive step — these model both the pool's
shared state and concurrent interference:
`get0` is the non-blocking `self._queue.get(False)` (`none` = `queue.Empty`);
`create1`/`create2` are the two `self._create()` calls (`.error .overflow`
when the budget gate fails, `.error (.external c)` when the factory raises);
`blockGet` is `self._queue.get(timeout=t)` as a function of the wait bound
`t` actually passed; `chRes`/`cxnRes` are the close outcomes used if this
pass evicts its fairy; `now` is `time.time()` for the policy checks. -/
structure AcquireEnv where
  get0 : Option QFairy
  create1 : Except PoolExc QFairy
  blockGet : Int → Option QFairy
  create2 : Except PoolExc QFairy
  chRes : Option ExcClass
  cxnRes : Option ExcClass
  now : Int

/-- The try/except ladder of `QueuedPool.acquire` that obtains a fairy:
non-blocking get; else `_create`; on `Overflow`, rebind
`timeout = timeout or self.timeout`, blocking get with that bound; on
`queue.Empty`, `_create` again; on `Overflow`, raise `Timeout`.  Returns
the fairy together with the (possibly rebound) local `timeout`, which the
eviction path passes to the recursive call. -/
def acquireStep (cfg : Cfg) (env : AcquireEnv) (timeout : Option Int) :
    Except PoolExc (QFairy × Option Int) :=
  match env.get0 with
  | some f => .ok (f, timeout)
  | none =>
    match env.create1 with
    | .ok f => .ok (f, timeout)
    | .error e =>
      if e = .overflow then
        let t := pyOrTimeout timeout cfg.timeout
        match env.blockGet t with
        | some f => .ok (f, some t)
        | none =>
          match env.create2 with
          | .ok f => .ok (f, some t)
          | .error e2 =>
            if e2 = .overflow then .error .timeout else .error e2
      else
        .error e

/-- `QueuedPool.acquire` with the eviction recursion: after obtaining a
fairy, if it is expired or stale, `self.close(fairy)` and re-enter
`acquire` with the current local `timeout`.  `fuel` bounds the recursion
depth (`none` = the model ran out of fuel); `envs k` is the environment of
the `k`-th stack frame. -/
def acquireGo (cfg : Cfg) :
    Nat → (Nat → AcquireEnv) → Nat → Option Int →
    Option (Except PoolExc QFairy)
  | 0, _, _, _ => none
  | fuel + 1, envs, k, timeout =>
    let env := envs k
    match acquireStep cfg env timeout with
    | .error e => some (.error e)
    | .ok (f, t') =>
      if is_expired cfg.recycle env.now f.createdAt then
        match (Fairy.close f.hasChannel env.chRes env.cxnRes).2 with
        | some c => some (.error (.external c))
        | none => acquireGo cfg fuel envs (k + 1) t'
      else if is_stale cfg.stale env.now f.releasedAt then
        match (Fairy.close f.hasChannel env.chRes env.cxnRes).2 with
        | some c => some (.error (.external c))
        | none => acquireGo cfg fuel envs (k + 1) t'
      else
        some (.ok f)

end QueuedPool

/-- A concrete fairy used in concrete scenarios. -/
def f0 : QFairy :=
  { createdAt := 0, releasedAt := 0, hasChannel := false }

/-- Concrete handle state: a live handle over a pool with `_avail = 5`. -/
def c3Start : HandleState :=
  { fairy := some f0
    pool := { queue := [], avail := 5 }
    cxnCloseAttempts := 0 }

/-- Concrete acquire environment where all four fairy-obtaining steps
fail: empty queue, both creations overflow, blocking get empty. -/
def c2Env : QueuedPool.AcquireEnv :=
  { get0 := none
    create1 := .error .overflow
    blockGet := fun _ => none
    create2 := .error .overflow
    chRes := none
    cxnRes := none
    now := 0 }

/-- Concrete pool configuration with the source's defaults. -/
def c2Cfg : QueuedPool.Cfg :=
  { timeout := 30, recycle := none, stale := none }

/-! ## Helper lemmas (shared) -/

/-- An exception caught by the `except Connection.connectivity_errors`
clause satisfies `is_connection_invalidated` (both are the same membership
test over `connectivity_errors`). -/
theorem catches_implies_invalidated (c : ExcClass)
    (h : exceptConnectivityCatches c = true) :
    Connection.is_connection_invalidated c = true := h

/-- The suppression guard swallows every close outcome that is a success
or a classifier-recognized connectivity error. -/
theorem closeGuard_conn_none (res : Option ExcClass)
    (h : ∀ c, res = some c → exceptConnectivityCatches c = true) :
    Fairy.closeGuard res = none := by
  cases res with
  | none => rfl
  | some c =>
    have hc := h c rfl
    simp [Fairy.closeGuard, hc, catches_implies_invalidated c hc]

/-- `Fairy.close` lets no exception escape when both close outcomes are
successes or classifier-recognized connectivity errors. -/
theorem fairyClose_conn_none (hasChannel : Bool)
    (chRes cxnRes : Option ExcClass)
    (h1 : ∀ c, chRes = some c → exceptConnectivityCatches c = true)
    (h2 : ∀ c, cxnRes = some c → exceptConnectivityCatches c = true) :
    (Fairy.close hasChannel chRes cxnRes).2 = none := by
  cases hasChannel with
  | false => simp [Fairy.close, closeGuard_conn_none cxnRes h2]
  | true => simp [Fairy.close, closeGuard_conn_none chRes h1,
      closeGuard_conn_none cxnRes h2]

/-! ## C5 -/

/-- C5: when budget is available but the factory raises, `_create`
re-increments the budget before propagating, leaving `_avail` unchanged. -/
theorem create_factory_error_no_leak (avail : Int) (c : ExcClass)
    (h : 0 < avail) :
    QueuedPool._create avail (.error c) = (avail, .error (.external c)) := by
  unfold QueuedPool._create
  rw [if_neg (by omega)]
  norm_num

/-- Witness for C5 at `_avail = 5`. -/
theorem create_factory_error_no_leak_witness :
    QueuedPool._create 5 (.error .valueError) =
      (5, .error (.external .valueError)) :=
  create_factory_error_no_leak 5 .valueError (by norm_num)

/-! ## C7 -/

/-- C7 counterexample: with `recycle = 0` (a set but falsy value) the code
returns false although `now - created_at > recycle` holds, contradicting
the claimed characterization (the spec-worded `expirySpec` says true). -/
theorem is_expired_zero_counterexample :
    QueuedPool.is_expired (some 0) 5 0 = false ∧
    QueuedPool.expirySpec (some 0) 5 0 = true := by
  constructor <;> rfl

/-- C7 amended: `is_expired` (resp. `is_stale`) returns false when recycle
(resp. stale) is unset or zero (Python-falsy); for a nonzero setting it
agrees with the spec's characterization: true iff
`now - created_at > recycle` (resp. `now - released_at > stale`), strict. -/
theorem expiry_staleness_characterization :
    (∀ now c : Int, QueuedPool.is_expired none now c = false ∧
        QueuedPool.is_expired (some 0) now c = false) ∧
    (∀ r now c : Int, r ≠ 0 →
        QueuedPool.is_expired (some r) now c =
          QueuedPool.expirySpec (some r) now c) ∧
    (∀ now rel : Int, QueuedPool.is_stale none now rel = false ∧
        QueuedPool.is_stale (some 0) now rel = false) ∧
    (∀ s now rel : Int, s ≠ 0 →
        QueuedPool.is_stale (some s) now rel =
          QueuedPool.expirySpec (some s) now rel) := by
  refine ⟨fun now c => ⟨rfl, by simp [QueuedPool.is_expired]⟩,
    fun r now c hr => ?_,
    fun now rel => ⟨rfl, by simp [QueuedPool.is_stale]⟩,
    fun s now rel hs => ?_⟩
  · simp [QueuedPool.is_expired, QueuedPool.expirySpec, hr]
  · simp [QueuedPool.is_stale, QueuedPool.expirySpec, hs]

/-- Witness for C7's amended claim at `recycle = 10`, `now = 20`,
`created_at = 0`. -/
theorem expiry_staleness_characterization_witness :
    QueuedPool.is_expired (some 10) 20 0 =
      QueuedPool.expirySpec (some 10) 20 0 :=
  expiry_staleness_characterization.2.1 10 20 0 (by norm_num)

/-! ## C8 -/

/-- C8: on scope exit, `Connection.__exit__` releases when there is no
exception or a non-invalidating one, closes on an invalidating one, and
takes exactly one of the two actions on every path. -/
theorem exit_release_or_close :
    Connection.exitStep none = .released ∧
    (∀ c, Connection.is_connection_invalidated c = false →
        Connection.exitStep (some c) = .released) ∧
    (∀ c, Connection.is_connection_invalidated c = true →
        Connection.exitStep (some c) = .closed) ∧
    (∀ t, Connection.exitStep t = .released ∨
        Connection.exitStep t = .closed) := by
  refine ⟨rfl, fun c h => ?_, fun c h => ?_, fun t => ?_⟩
  · simp [Connection.exitStep, h]
  · simp [Connection.exitStep, h]
  · cases Connection.exitStep t with
    | released => exact Or.inl rfl
    | closed => exact Or.inr rfl

/-- Witness for C8: a `connectionClosed` exception forces a close. -/
theorem exit_release_or_close_witness :
    Connection.exitStep (some .connectionClosed) = .closed :=
  exit_release_or_close.2.2.1 .connectionClosed (by rfl)

/-! ## C10 -/

/-- C10: every exception the `except Connection.connectivity_errors`
clause catches satisfies `is_connection_invalidated`, so the re-raise
guard in `Fairy.close` never fires: the caught exception is suppressed. -/
theorem close_guard_unreachable (c : ExcClass)
    (h : exceptConnectivityCatches c = true) :
    Connection.is_connection_invalidated c = true ∧
    Fairy.closeGuard (some c) = none := by
  refine ⟨catches_implies_invalidated c h, ?_⟩
  simp [Fairy.closeGuard, h, catches_implies_invalidated c h]

/-- Witness for C10 at a `select.error`. -/
theorem close_guard_unreachable_witness :
    Connection.is_connection_invalidated .selectError = true ∧
    Fairy.closeGuard (some .selectError) = none :=
  close_guard_unreachable .selectError (by rfl)

/-! ## C1 -/

/-- One budget step preserves `avail + live = N` and `0 ≤ avail`. -/
theorem budgetStep_invariant (N : Int) (s s1 : QueuedPool.BudgetState)
    (op : QueuedPool.PoolOp)
    (h1 : s.avail + s.live = N) (h2 : 0 ≤ s.avail)
    (h : QueuedPool.budgetStep s op = some s1) :
    s1.avail + s1.live = N ∧ 0 ≤ s1.avail := by
  cases op with
  | create fac =>
    by_cases ha : s.avail ≤ 0
    · simp only [QueuedPool.budgetStep, QueuedPool._create, if_pos ha] at h
      cases h
      exact ⟨h1, h2⟩
    · cases fac with
      | ok u =>
        simp only [QueuedPool.budgetStep, QueuedPool._create,
          if_neg ha] at h
        cases h
        constructor
        · push_cast
          omega
        · simp only []
          omega
      | error c =>
        simp only [QueuedPool.budgetStep, QueuedPool._create,
          if_neg ha] at h
        cases h
        constructor
        · push_cast
          omega
        · simp only []
          omega
  | destroy =>
    cases hl : s.live with
    | zero =>
      rw [QueuedPool.budgetStep, hl] at h
      cases h
    | succ n =>
      rw [QueuedPool.budgetStep, hl] at h
      cases h
      constructor
      · push_cast
        omega
      · simp only []
        omega

/-- A whole run preserves the invariant. -/
theorem budgetRun_invariant (N : Int) (ops : List QueuedPool.PoolOp) :
    ∀ s s1 : QueuedPool.BudgetState,
      s.avail + s.live = N → 0 ≤ s.avail →
      QueuedPool.budgetRun s ops = some s1 →
      s1.avail + s1.live = N ∧ 0 ≤ s1.avail := by
  induction ops with
  | nil =>
    intro s s1 h1 h2 h3
    rw [QueuedPool.budgetRun] at h3
    cases h3
    exact ⟨h1, h2⟩
  | cons op ops ih =>
    intro s s1 h1 h2 h3
    rw [QueuedPool.budgetRun] at h3
    cases hstep : QueuedPool.budgetStep s op with
    | none => rw [hstep] at h3; cases h3
    | some s2 =>
      rw [hstep] at h3
      have hinv := budgetStep_invariant N s s2 op h1 h2 hstep
      exact ih s2 s1 hinv.1 hinv.2 h3

/-- C1: starting from `_avail = max_size + max_overflow` and no live
fairies, any well-formed sequence of `_create` calls and destructions
keeps `_avail ≥ 0` and keeps the number of live fairies at most
`max_size + max_overflow`. -/
theorem budget_invariant (maxSize maxOverflow : Nat)
    (ops : List QueuedPool.PoolOp) (s1 : QueuedPool.BudgetState)
    (h : QueuedPool.budgetRun (QueuedPool.initBudget maxSize maxOverflow)
        ops = some s1) :
    0 ≤ s1.avail ∧ s1.live ≤ maxSize + maxOverflow := by
  have hinv := budgetRun_invariant ((maxSize : Int) + maxOverflow) ops
    (QueuedPool.initBudget maxSize maxOverflow) s1 (by
      simp [QueuedPool.initBudget]) (by
      simp [QueuedPool.initBudget]
      positivity) h
  refine ⟨hinv.2, ?_⟩
  have := hinv.1
  have h2 := hinv.2
  omega

/-- Witness for C1: create two fairies, fail one creation on overflow,
destroy one, on a pool with `max_size = 1`, `max_overflow = 1`. -/
theorem budget_invariant_witness :
    QueuedPool.budgetRun (QueuedPool.initBudget 1 1)
        [.create (.ok ()), .create (.ok ()), .create (.ok ()), .destroy] =
      some { avail := 1, live := 1 } ∧
    (0 : Int) ≤ (1 : Int) ∧ 1 ≤ 1 + 1 := by
  refine ⟨by decide, ?_⟩
  exact budget_invariant 1 1
    [.create (.ok ()), .create (.ok ()), .create (.ok ()), .destroy]
    { avail := 1, live := 1 } (by decide)

/-! ## C3 -/

/-- C3 (code bug): on a handle over a `QueuedPool`, the first `close`
increments `_avail` from 5 to 6 and closes the connection once; a second
`close` raises `AttributeError` without touching the connection again, but
it increments `_avail` a second time (6 to 7), double-incrementing the
budget contrary to the claimed idempotence.  A second `release`, by
contrast, raises `AttributeError` with no state change at all. -/
theorem double_close_double_increments :
    (Connection.closeStep c3Start none none).2 = .ok ∧
    (Connection.closeStep c3Start none none).1.pool.avail = 6 ∧
    (Connection.closeStep c3Start none none).1.cxnCloseAttempts = 1 ∧
    (Connection.closeStep c3Start none none).1.fairy = none ∧
    (Connection.closeStep
        (Connection.closeStep c3Start none none).1 none none).2 =
      .attributeError ∧
    (Connection.closeStep
        (Connection.closeStep c3Start none none).1 none none).1.pool.avail
      = 7 ∧
    (Connection.closeStep
        (Connection.closeStep c3Start none none).1 none
        none).1.cxnCloseAttempts = 1 ∧
    (Connection.releaseStep 1
        (Connection.closeStep c3Start none none).1 3 none none) =
      ((Connection.closeStep c3Start none none).1, .attributeError) := by
  decide

/-! ## C4 -/

/-- C4 counterexample: a fairy with a sub-channel whose `channel.close()`
raises a non-connectivity error (`ValueError`): the error escapes
`Fairy.close` and `cxn.close()` is never attempted. -/
theorem close_abandons_cxn_counterexample :
    Fairy.close true (some .valueError) none = (false, some .valueError) := by
  decide

/-- C4 amended: the connection close step is attempted whenever the
sub-channel close succeeds or raises an error caught by the connectivity
clause (which is then suppressed); a non-connectivity error from the
sub-channel close propagates and abandons the connection close step. -/
theorem close_attempts_cxn_on_connectivity (hasChannel : Bool)
    (chRes cxnRes : Option ExcClass)
    (h : ∀ c, chRes = some c → exceptConnectivityCatches c = true) :
    (Fairy.close hasChannel chRes cxnRes).1 = true := by
  cases hasChannel with
  | false => rfl
  | true => simp [Fairy.close, closeGuard_conn_none chRes h]

/-- Witness for C4's amended claim: sub-channel close raising
`ConnectionClosed` still reaches the connection close. -/
theorem close_attempts_cxn_on_connectivity_witness :
    (Fairy.close true (some .connectionClosed) none).1 = true :=
  close_attempts_cxn_on_connectivity true (some .connectionClosed) none
    (by intro c hc; cases hc; rfl)

/-! ## C6 -/

/-- C6 counterexample: releasing into a full queue (capacity 1, already
holding one fairy) a fairy whose `cxn.close()` raises a non-connectivity
error (`ValueError`): the error escapes `release`, so release is not
raise-free on the full-queue path. -/
theorem release_full_raises_counterexample :
    (QueuedPool.release 1 { queue := [f0], avail := 0 } f0 7 none
        (some .valueError)).2 = some .valueError := by
  decide

/-- C6 amended: `release` stamps `released_at = now` and pushes without
error when the queue is not full (in particular always when
`max_size = 0`, since `queue.Queue(maxsize=0)` is unbounded); when the
queue is at capacity (`0 < max_size ≤` its length) it destroys the fairy
instead, incrementing `_avail` by one — the full-queue condition itself
never raises, and nothing escapes as long as the destruction's close
outcomes are successes or classifier-recognized connectivity errors (a
non-connectivity destruction error, however, does propagate). -/
theorem release_spec (maxSize : Nat) (s : QueuedPool.QPState) (f : QFairy)
    (now : Int) (chRes cxnRes : Option ExcClass)
    (hch : ∀ c, chRes = some c → exceptConnectivityCatches c = true)
    (hcxn : ∀ c, cxnRes = some c → exceptConnectivityCatches c = true) :
    (¬ (0 < maxSize ∧ maxSize ≤ s.queue.length) →
      QueuedPool.release maxSize s f now chRes cxnRes =
        ({ s with queue := s.queue ++ [{ f with releasedAt := now }] },
          none)) ∧
    (0 < maxSize ∧ maxSize ≤ s.queue.length →
      (QueuedPool.release maxSize s f now chRes cxnRes).1.avail =
          s.avail + 1 ∧
      (QueuedPool.release maxSize s f now chRes cxnRes).1.queue =
          s.queue ∧
      (QueuedPool.release maxSize s f now chRes cxnRes).2 = none) := by
  constructor
  · intro hroom
    simp [QueuedPool.release, hroom]
  · intro hfull
    simp only [QueuedPool.release, QueuedPool.close, if_pos hfull]
    refine ⟨?_, ?_, ?_⟩
    · trivial
    · trivial
    · exact fairyClose_conn_none _ chRes cxnRes hch hcxn

/-- Witness for C6's amended claim: full queue (capacity 1 holding one
fairy), destruction succeeds; `_avail` goes from 0 to 1, the queue is
untouched, and no error escapes. -/
theorem release_spec_witness :
    (QueuedPool.release 1 { queue := [f0], avail := 0 } f0 7 none
        none).1.avail = 0 + 1 ∧
    (QueuedPool.release 1 { queue := [f0], avail := 0 } f0 7 none
        none).1.queue = [f0] ∧
    (QueuedPool.release 1 { queue := [f0], avail := 0 } f0 7 none
        none).2 = none :=
  (release_spec 1 { queue := [f0], avail := 0 } f0 7 none none
      (by intro c hc; cases hc) (by intro c hc; cases hc)).2
    (by decide)

/-! ## C2 -/

/-- The fairy-obtaining ladder of `acquire` can fail with `Timeout` or a
propagated external error, but never with `Overflow`: both `Overflow`
sites are caught (the second is converted to `Timeout`). -/
theorem acquireStep_ne_overflow (cfg : QueuedPool.Cfg)
    (env : QueuedPool.AcquireEnv) (t : Option Int) :
    QueuedPool.acquireStep cfg env t ≠ .error .overflow := by
  obtain ⟨g0, c1, bg, c2, ch, cx, nw⟩ := env
  cases g0 with
  | some f => simp [QueuedPool.acquireStep]
  | none =>
    cases c1 with
    | ok f => simp [QueuedPool.acquireStep]
    | error e =>
      by_cases he : e = QueuedPool.PoolExc.overflow
      · subst he
        cases hbg : bg (QueuedPool.pyOrTimeout t cfg.timeout) with
        | some f => simp [QueuedPool.acquireStep, hbg]
        | none =>
          cases c2 with
          | ok f => simp [QueuedPool.acquireStep, hbg]
          | error e2 =>
            by_cases he2 : e2 = QueuedPool.PoolExc.overflow
            · subst he2
              simp [QueuedPool.acquireStep, hbg]
            · simp [QueuedPool.acquireStep, hbg, he2]
      · simp [QueuedPool.acquireStep, he]

/-- C2: when the non-blocking pop, the first budget-gated creation, the
blocking pop (bounded by `timeout or self.timeout`), and the second
budget-gated creation all fail, `acquire` raises `Timeout`; and on no path
does `acquire` let `Overflow` escape to the caller. -/
theorem acquire_timeout_no_overflow :
    (∀ (cfg : QueuedPool.Cfg) (fuel : Nat)
        (envs : Nat → QueuedPool.AcquireEnv) (k : Nat) (timeout : Option Int),
        (envs k).get0 = none →
        (envs k).create1 = .error .overflow →
        (envs k).blockGet (QueuedPool.pyOrTimeout timeout cfg.timeout) =
          none →
        (envs k).create2 = .error .overflow →
        QueuedPool.acquireGo cfg (fuel + 1) envs k timeout =
          some (.error .timeout)) ∧
    (∀ (cfg : QueuedPool.Cfg) (fuel : Nat)
        (envs : Nat → QueuedPool.AcquireEnv) (k : Nat) (timeout : Option Int),
        QueuedPool.acquireGo cfg fuel envs k timeout ≠
          some (.error .overflow)) := by
  constructor
  · intro cfg fuel envs k timeout h0 h1 h2 h3
    have hstep : QueuedPool.acquireStep cfg (envs k) timeout =
        .error .timeout := by
      simp [QueuedPool.acquireStep, h0, h1, h2, h3]
    rw [QueuedPool.acquireGo, hstep]
  · intro cfg fuel
    induction fuel with
    | zero =>
      intro envs k timeout h
      rw [QueuedPool.acquireGo] at h
      cases h
    | succ n ih =>
      intro envs k timeout h
      rw [QueuedPool.acquireGo] at h
      cases hstep : QueuedPool.acquireStep cfg (envs k) timeout with
      | error e =>
        rw [hstep] at h
        have he : e = QueuedPool.PoolExc.overflow := by simpa using h
        exact acquireStep_ne_overflow cfg (envs k) timeout (he ▸ hstep)
      | ok p =>
        obtain ⟨f, t'⟩ := p
        rw [hstep] at h
        simp only [] at h
        by_cases hexp :
            QueuedPool.is_expired cfg.recycle (envs k).now f.createdAt
        · rw [if_pos hexp] at h
          cases hcl :
              (Fairy.close f.hasChannel (envs k).chRes (envs k).cxnRes).2 with
          | some c =>
            rw [hcl] at h
            simp at h
          | none =>
            rw [hcl] at h
            exact ih envs (k + 1) t' h
        · rw [if_neg hexp] at h
          by_cases hst :
              QueuedPool.is_stale cfg.stale (envs k).now f.releasedAt
          · rw [if_pos hst] at h
            cases hcl :
                (Fairy.close f.hasChannel (envs k).chRes
                  (envs k).cxnRes).2 with
            | some c =>
              rw [hcl] at h
              simp at h
            | none =>
              rw [hcl] at h
              exact ih envs (k + 1) t' h
          · rw [if_neg hst] at h
            simp at h

/-- Witness for C2: all four steps fail concretely, giving `Timeout`. -/
theorem acquire_timeout_no_overflow_witness :
    QueuedPool.acquireGo c2Cfg 1 (fun _ => c2Env) 0 none =
      some (.error .timeout) :=
  acquire_timeout_no_overflow.1 c2Cfg 0 (fun _ => c2Env) 0 none
    rfl rfl rfl rfl

/-! ## C9 -/

/-- The ladder's outcome depends on the caller's timeout only through
`timeout or self.timeout`: two timeout arguments with the same effective
wait give the same error or the same fairy, and continuation timeouts with
the same effective wait. -/
theorem acquireStep_congr (cfg : QueuedPool.Cfg)
    (env : QueuedPool.AcquireEnv) (t1 t2 : Option Int)
    (h : QueuedPool.pyOrTimeout t1 cfg.timeout =
      QueuedPool.pyOrTimeout t2 cfg.timeout) :
    (∃ e, QueuedPool.acquireStep cfg env t1 = .error e ∧
        QueuedPool.acquireStep cfg env t2 = .error e) ∨
    (∃ f t1' t2', QueuedPool.acquireStep cfg env t1 = .ok (f, t1') ∧
        QueuedPool.acquireStep cfg env t2 = .ok (f, t2') ∧
        QueuedPool.pyOrTimeout t1' cfg.timeout =
          QueuedPool.pyOrTimeout t2' cfg.timeout) := by
  obtain ⟨g0, c1, bg, c2, ch, cx, nw⟩ := env
  cases g0 with
  | some f =>
    right
    exact ⟨f, t1, t2, by simp [QueuedPool.acquireStep],
      by simp [QueuedPool.acquireStep], h⟩
  | none =>
    cases c1 with
    | ok f =>
      right
      exact ⟨f, t1, t2, by simp [QueuedPool.acquireStep],
        by simp [QueuedPool.acquireStep], h⟩
    | error e =>
      by_cases he : e = QueuedPool.PoolExc.overflow
      · subst he
        cases hbg : bg (QueuedPool.pyOrTimeout t2 cfg.timeout) with
        | some f =>
          right
          refine ⟨f, some (QueuedPool.pyOrTimeout t1 cfg.timeout),
            some (QueuedPool.pyOrTimeout t2 cfg.timeout), ?_, ?_, ?_⟩
          · simp [QueuedPool.acquireStep, h, hbg]
          · simp [QueuedPool.acquireStep, hbg]
          · rw [h]
        | none =>
          cases c2 with
          | ok f =>
            right
            refine ⟨f, some (QueuedPool.pyOrTimeout t1 cfg.timeout),
              some (QueuedPool.pyOrTimeout t2 cfg.timeout), ?_, ?_, ?_⟩
            · simp [QueuedPool.acquireStep, h, hbg]
            · simp [QueuedPool.acquireStep, hbg]
            · rw [h]
          | error e2 =>
            left
            by_cases he2 : e2 = QueuedPool.PoolExc.overflow
            · subst he2
              exact ⟨.timeout, by simp [QueuedPool.acquireStep, h, hbg],
                by simp [QueuedPool.acquireStep, hbg]⟩
            · exact ⟨e2, by simp [QueuedPool.acquireStep, h, hbg, he2],
                by simp [QueuedPool.acquireStep, hbg, he2]⟩
      · left
        exact ⟨e, by simp [QueuedPool.acquireStep, he],
          by simp [QueuedPool.acquireStep, he]⟩

/-- Two timeout arguments with the same effective wait make the whole
`acquire` (eviction recursion included) agree. -/
theorem acquireGo_timeout_congr (cfg : QueuedPool.Cfg) (fuel : Nat) :
    ∀ (envs : Nat → QueuedPool.AcquireEnv) (k : Nat) (t1 t2 : Option Int),
      QueuedPool.pyOrTimeout t1 cfg.timeout =
        QueuedPool.pyOrTimeout t2 cfg.timeout →
      QueuedPool.acquireGo cfg fuel envs k t1 =
        QueuedPool.acquireGo cfg fuel envs k t2 := by
  induction fuel with
  | zero => intro envs k t1 t2 h; rfl
  | succ n ih =>
    intro envs k t1 t2 h
    rw [QueuedPool.acquireGo, QueuedPool.acquireGo]
    rcases acquireStep_congr cfg (envs k) t1 t2 h with
      ⟨e, h1, h2⟩ | ⟨f, t1', t2', h1, h2, h3⟩
    · rw [h1, h2]
    · rw [h1, h2]
      simp only []
      by_cases hexp :
          QueuedPool.is_expired cfg.recycle (envs k).now f.createdAt
      · rw [if_pos hexp, if_pos hexp]
        cases hcl :
            (Fairy.close f.hasChannel (envs k).chRes (envs k).cxnRes).2 with
        | some c => rfl
        | none => exact ih envs (k + 1) t1' t2' h3
      · rw [if_neg hexp, if_neg hexp]
        by_cases hst :
            QueuedPool.is_stale cfg.stale (envs k).now f.releasedAt
        · rw [if_pos hst, if_pos hst]
          cases hcl :
              (Fairy.close f.hasChannel (envs k).chRes
                (envs k).cxnRes).2 with
          | some c => rfl
          | none => exact ih envs (k + 1) t1' t2' h3
        · rw [if_neg hst, if_neg hst]

/-- C9: a caller passing `timeout=0` does not get a zero-length blocking
wait: `timeout or self.timeout` replaces any falsy timeout (0 as well as
None) by the pool default, so `acquire` with `timeout=0` behaves exactly
like `acquire` with no timeout argument. -/
theorem acquire_zero_timeout_uses_default :
    (∀ d : Int, QueuedPool.pyOrTimeout (some 0) d = d ∧
        QueuedPool.pyOrTimeout none d = d) ∧
    (∀ (cfg : QueuedPool.Cfg) (fuel : Nat)
        (envs : Nat → QueuedPool.AcquireEnv) (k : Nat),
        QueuedPool.acquireGo cfg fuel envs k (some 0) =
          QueuedPool.acquireGo cfg fuel envs k none) := by
  constructor
  · intro d
    constructor <;> simp [QueuedPool.pyOrTimeout]
  · intro cfg fuel envs k
    exact acquireGo_timeout_congr cfg fuel envs k (some 0) none
      (by simp [QueuedPool.pyOrTimeout])

end PikaPool
